import Mathlib

/-!
# Shallow embedding of the `twocaptcha` Go client (src/twocaptcha.go)

The repository is a single-file Go client for the 2captcha.com HTTP API.
Its one piece of control flow is the self-recursive retry primitive
`apiRequest`; the three public operations (`SolveRecaptchaV2`,
`SolveRecaptchaV3`, `ReportBadCaptcha`) are thin wrappers around it.

Modelling choices:

* The HTTP transport (`c.Client`, an `*http.Client`) is modelled by an
  *oracle* `Nat → RequestOutcome`: the outcome of the n-th request attempt
  made through the client.  An attempt can fail while building the request
  (`http.NewRequest`), while sending it (`Client.Do`), while reading the
  response body (`ioutil.ReadAll`), or it can produce a body string.
  Functions thread the next attempt index and return it, so that the two
  `apiRequest` calls inside a solve operation consume consecutive
  oracle entries, exactly as consecutive requests on one client would.
* Side effects (`time.Sleep`, sending a request) are recorded in an event
  trace returned alongside the result, so claims about "no sleep", "no
  network request", or "exactly one additional request" become statements
  about the trace.
* Go `time.Duration` is an `int64` count of nanoseconds; `delay *
  time.Second` is 64-bit multiplication by 10^9, modelled with an explicit
  wrap at 2^63.  `time.Sleep` durations are recorded in nanoseconds.
* Go strings are byte strings; every string the claims touch is ASCII, so
  `String` (and its `List Char` data) is a faithful model: `strings.Contains`
  becomes infix containment on the character list and `body[3:]` becomes
  dropping 3 characters.  A Go slice `body[3:]` panics when `len(body) < 3`;
  that panic is modelled by the explicit `Outcome.panicked` result.
* Go function results `(string, error)` become `Outcome String`: `ok` for
  `err == nil`, `err msg` for a non-nil error carrying message `msg`.
-/

/-- Outcome of one request attempt through the HTTP transport: an error from
`http.NewRequest`, from `Client.Do`, from `ioutil.ReadAll`, or a response
body read successfully. -/
inductive RequestOutcome
  | buildErr (msg : String)
  | sendErr (msg : String)
  | readErr (msg : String)
  | body (s : String)
deriving Repr, DecidableEq

/-- The environment: outcome of the n-th request attempt made on the client. -/
abbrev Oracle := Nat → RequestOutcome

/-- Operation-specific form parameters (`map[string]string` in the source;
modelled as an association list in the literal order of the Go map literal). -/
abbrev Params := List (String × String)

/-- Observable side effects of a call: a `time.Sleep` for `ns` nanoseconds, or
an HTTP POST of `form` to `url`. -/
inductive Event
  | sleepEv (ns : Int)
  | requestEv (url : String) (form : Params)
deriving Repr, DecidableEq

/-- Result of a Go call returning `(value, error)`, with an explicit
`panicked` constructor modelling a Go runtime panic (out-of-range slice). -/
inductive Outcome (α : Type)
  | ok (val : α)
  | err (msg : String)
  | panicked
deriving Repr, DecidableEq

/-- `true` exactly when the call ended in a runtime panic. -/
def Outcome.isPanicked {α : Type} : Outcome α → Bool
  | .panicked => true
  | _ => false

/-- `strings.Contains s sub` (ASCII): `sub` occurs as a contiguous substring
of `s`. -/
def strContains (s sub : String) : Bool := decide (sub.data <:+: s.data)

/-- Go map read `params[k]`: the value bound to `k`, or the zero value `""`
when `k` is absent. -/
def getParam (params : Params) (k : String) : String :=
  (params.lookup k).getD ""

/-- Go slice `s[n:]` for ASCII strings (total here; the in-bounds check
`n ≤ s.length`, which Go enforces by panicking, is made at the call site). -/
def sliceFrom (s : String) (n : Nat) : String := String.mk (s.data.drop n)

/-- Two's-complement wrap of an integer into the `int64` range. -/
def int64Wrap (x : Int) : Int := (x + 2 ^ 63) % 2 ^ 64 - 2 ^ 63

/-- `delay * time.Second` in Go: `time.Duration` is an `int64` count of
nanoseconds and `time.Second = 10^9`, so this is 64-bit wrapping
multiplication of `delay` by `10^9`. -/
def durationMulSecond (delay : Int) : Int := int64Wrap (delay * 1000000000)

/-- The client handle: the API key.  (The `Client *http.Client` field is
modelled by the `Oracle` argument threaded through every operation.) -/
structure TwoCaptchaClient where
  ApiKey : String
deriving Repr, DecidableEq

/-- `New` creates a TwoCaptchaClient instance. -/
def New (apiKey : String) : TwoCaptchaClient := ⟨apiKey⟩

/-- ApiURL is the url of the 2captcha API endpoint. -/
def ApiURL : String := "https://2captcha.com/in.php"

/-- ResultURL is the url of the 2captcha result API endpoint. -/
def ResultURL : String := "https://2captcha.com/res.php"

/-- The body of `apiRequest`, structurally recursive on `fuel`.
`fuel` is tied to the Go `retries : int` by `fuel = retries.toNat`: the Go
guard `retries <= 0` holds exactly when `retries.toNat = 0`, and the
recursive call `apiRequest(..., retries-1)` decrements `toNat` by one while
it is positive, so the `fuel = 0` case is exactly the guard's error return.
Each attempt: sleep `delay * time.Second`; build the form (`key` first, then
the operation parameters); send; on a body containing `CAPCHA_NOT_READY`
recurse with one less retry; otherwise validate the body (report-bad wants
exactly `OK_REPORT_RECORDED`, anything else wants a body containing `OK|`),
failing with the raw body embedded in the error; on success return
`body[3:]`, which panics when the body is shorter than 3. -/
def apiRequestAux (key : String) (o : Oracle) (URL : String) (params : Params)
    (delay : Int) : Nat → Nat → Outcome String × List Event × Nat
  | idx, 0 => (Outcome.err "Maximum retries exceeded", [], idx)
  | idx, fuel + 1 =>
    let ns := durationMulSecond delay
    let form := ("key", key) :: params
    match o idx with
    | RequestOutcome.buildErr m => (Outcome.err m, [Event.sleepEv ns], idx + 1)
    | RequestOutcome.sendErr m =>
        (Outcome.err m, [Event.sleepEv ns, Event.requestEv URL form], idx + 1)
    | RequestOutcome.readErr m =>
        (Outcome.err m, [Event.sleepEv ns, Event.requestEv URL form], idx + 1)
    | RequestOutcome.body s =>
        if strContains s "CAPCHA_NOT_READY" then
          let r := apiRequestAux key o URL params delay (idx + 1) fuel
          (r.1, Event.sleepEv ns :: Event.requestEv URL form :: r.2.1, r.2.2)
        else if (getParam params "action" == "reportbad" && s != "OK_REPORT_RECORDED")
            || (getParam params "action" != "reportbad" && !strContains s "OK|") then
          (Outcome.err ("Invalid respponse from 2captcha: " ++ s),
            [Event.sleepEv ns, Event.requestEv URL form], idx + 1)
        else if 3 ≤ s.length then
          (Outcome.ok (sliceFrom s 3),
            [Event.sleepEv ns, Event.requestEv URL form], idx + 1)
        else
          (Outcome.panicked, [Event.sleepEv ns, Event.requestEv URL form], idx + 1)

/-- `(c *TwoCaptchaClient) apiRequest(URL, params, delay, retries)`: the
low-level request/retry primitive.  Besides the Go arguments it takes the
transport oracle and the index of the next request attempt, and returns the
result, the event trace, and the next unused attempt index. -/
def TwoCaptchaClient.apiRequest (c : TwoCaptchaClient) (o : Oracle) (idx : Nat)
    (URL : String) (params : Params) (delay : Int) (retries : Int) :
    Outcome String × List Event × Nat :=
  apiRequestAux c.ApiKey o URL params delay idx retries.toNat

/-- `SolveRecaptchaV2(siteURL, recaptchaKey, delay, retries)`: submit with a
fixed `(delay 0, retries 3)` budget, sleep `10 * time.Second`, then poll the
result endpoint with the caller's `delay`/`retries`; on success return the
solved captcha and the captcha ID. -/
def TwoCaptchaClient.SolveRecaptchaV2 (c : TwoCaptchaClient) (o : Oracle)
    (idx : Nat) (siteURL recaptchaKey : String) (delay retries : Int) :
    Outcome (String × String) × List Event × Nat :=
  match c.apiRequest o idx ApiURL
      [("googlekey", recaptchaKey), ("pageurl", siteURL),
       ("method", "userrecaptcha")] 0 3 with
  | (Outcome.err e, evs, idx1) => (Outcome.err e, evs, idx1)
  | (Outcome.panicked, evs, idx1) => (Outcome.panicked, evs, idx1)
  | (Outcome.ok captchaId, evs, idx1) =>
    match c.apiRequest o idx1 ResultURL
        [("googlekey", recaptchaKey), ("pageurl", siteURL),
         ("method", "userrecaptcha"), ("id", captchaId), ("action", "get")]
        delay retries with
    | (Outcome.ok resp, evs2, idx2) =>
        (Outcome.ok (resp, captchaId),
          evs ++ Event.sleepEv 10000000000 :: evs2, idx2)
    | (Outcome.err e, evs2, idx2) =>
        (Outcome.err e, evs ++ Event.sleepEv 10000000000 :: evs2, idx2)
    | (Outcome.panicked, evs2, idx2) =>
        (Outcome.panicked, evs ++ Event.sleepEv 10000000000 :: evs2, idx2)

/-- Rounding to the nearest integer, ties to even — the rounding of Go's
`strconv`-based `%.1f` formatting (applied after scaling by 10). -/
def roundHalfEven (x : ℚ) : ℤ :=
  if Int.fract x < 1 / 2 then ⌊x⌋
  else if 1 / 2 < Int.fract x then ⌊x⌋ + 1
  else if ⌊x⌋ % 2 = 0 then ⌊x⌋ else ⌊x⌋ + 1

/-- Decimal rendering of `n` tenths with exactly one digit after the point. -/
def renderTenths (n : ℤ) : String :=
  (if n < 0 then "-" else "") ++
    toString (n.natAbs / 10) ++ "." ++ toString (n.natAbs % 10)

/-- `fmt.Sprintf("%.1f", x)`: x rounded to one decimal place and rendered
with exactly one fractional digit.  The Go source formats a `float64`; the
score is modelled as a rational, with round-half-even ties matching
`strconv.FormatFloat`.  (For a `float64` the tie is decided on the exact
binary value; on the scores' domain `0.0–1.0` this changes only exact
binary ties, and never the one-decimal output shape.) -/
def fmtOneDecimal (x : ℚ) : String := renderTenths (roundHalfEven (x * 10))

/-- `SolveRecaptchaV3(siteURL, recaptchaKey, action, minScore)`: submit a v3
challenge (`version=v3`, `action`, `min_score` formatted `%.1f`) with the
fixed `(delay 0, retries 3)` budget, then poll with the fixed
`(delay 5, retries 20)` budget; on success return the solved captcha only. -/
def TwoCaptchaClient.SolveRecaptchaV3 (c : TwoCaptchaClient) (o : Oracle)
    (idx : Nat) (siteURL recaptchaKey action : String) (minScore : ℚ) :
    Outcome String × List Event × Nat :=
  match c.apiRequest o idx ApiURL
      [("googlekey", recaptchaKey), ("pageurl", siteURL),
       ("method", "userrecaptcha"), ("version", "v3"), ("action", action),
       ("min_score", fmtOneDecimal minScore)] 0 3 with
  | (Outcome.err e, evs, idx1) => (Outcome.err e, evs, idx1)
  | (Outcome.panicked, evs, idx1) => (Outcome.panicked, evs, idx1)
  | (Outcome.ok captchaId, evs, idx1) =>
    match c.apiRequest o idx1 ResultURL
        [("googlekey", recaptchaKey), ("pageurl", siteURL),
         ("method", "userrecaptcha"), ("id", captchaId), ("action", "get")]
        5 20 with
    | (r, evs2, idx2) => (r, evs ++ evs2, idx2)

/-- `ReportBadCaptcha(captchaId)`: send `action=reportbad` for `captchaId`
with the fixed `(delay 0, retries 3)` budget; the payload is discarded and
only the error is returned. -/
def TwoCaptchaClient.ReportBadCaptcha (c : TwoCaptchaClient) (o : Oracle)
    (idx : Nat) (captchaId : String) : Outcome Unit × List Event × Nat :=
  match c.apiRequest o idx ResultURL
      [("id", captchaId), ("action", "reportbad")] 0 3 with
  | (Outcome.ok _, evs, idx1) => (Outcome.ok (), evs, idx1)
  | (Outcome.err e, evs, idx1) => (Outcome.err e, evs, idx1)
  | (Outcome.panicked, evs, idx1) => (Outcome.panicked, evs, idx1)

/-- The event trace of `n` consecutive attempts that all sleep `ns`
nanoseconds and then POST `form` to `url` (the shape a run of not-ready
replies produces). -/
def attemptTrace (ns : Int) (url : String) (form : Params) : Nat → List Event
  | 0 => []
  | n + 1 => Event.sleepEv ns :: Event.requestEv url form :: attemptTrace ns url form n

/-! ## Helper lemmas -/

/-- `strContains` decides character-list infix containment. -/
theorem strContains_iff {s sub : String} :
    strContains s sub = true ↔ sub.data <:+: s.data := by
  simp [strContains]

/-- A string containing `sub` is at least as long as `sub`. -/
theorem strContains_length_le {s sub : String}
    (h : strContains s sub = true) : sub.length ≤ s.length := by
  have h' := (strContains_iff).mp h
  have := h'.length_le
  cases s with
  | mk l => cases sub with
    | mk l' => simpa [String.length] using this

/-- Appending a string on the left preserves containment of the right part. -/
theorem strContains_append_self (p s : String) :
    strContains (p ++ s) s = true := by
  rw [strContains_iff, String.data_append]
  exact (List.suffix_append p.data s.data).isInfix

/-- One unfolding of `apiRequestAux` with fuel left. -/
theorem apiRequestAux_step (key : String) (o : Oracle) (URL : String)
    (params : Params) (delay : Int) (idx fuel : Nat) :
    apiRequestAux key o URL params delay idx (fuel + 1) =
      (let ns := durationMulSecond delay
       let form := ("key", key) :: params
       match o idx with
       | RequestOutcome.buildErr m => (Outcome.err m, [Event.sleepEv ns], idx + 1)
       | RequestOutcome.sendErr m =>
           (Outcome.err m, [Event.sleepEv ns, Event.requestEv URL form], idx + 1)
       | RequestOutcome.readErr m =>
           (Outcome.err m, [Event.sleepEv ns, Event.requestEv URL form], idx + 1)
       | RequestOutcome.body s =>
           if strContains s "CAPCHA_NOT_READY" then
             let r := apiRequestAux key o URL params delay (idx + 1) fuel
             (r.1, Event.sleepEv ns :: Event.requestEv URL form :: r.2.1, r.2.2)
           else if (getParam params "action" == "reportbad" && s != "OK_REPORT_RECORDED")
               || (getParam params "action" != "reportbad" && !strContains s "OK|") then
             (Outcome.err ("Invalid respponse from 2captcha: " ++ s),
               [Event.sleepEv ns, Event.requestEv URL form], idx + 1)
           else if 3 ≤ s.length then
             (Outcome.ok (sliceFrom s 3),
               [Event.sleepEv ns, Event.requestEv URL form], idx + 1)
           else
             (Outcome.panicked, [Event.sleepEv ns, Event.requestEv URL form], idx + 1)) := rfl
/-! ## Claim theorems -/

/-- C1: for every call to `apiRequest` with a retry count ≤ 0, the call fails
immediately with the fixed error `"Maximum retries exceeded"`, with an empty
event trace (no sleep, no network request) and no oracle entry consumed. -/
theorem apiRequest_zero_retries_fails_immediately (c : TwoCaptchaClient)
    (o : Oracle) (idx : Nat) (URL : String) (params : Params)
    (delay retries : Int) (h : retries ≤ 0) :
    c.apiRequest o idx URL params delay retries =
      (Outcome.err "Maximum retries exceeded", [], idx) := by
  have h0 : retries.toNat = 0 := by omega
  unfold TwoCaptchaClient.apiRequest
  rw [h0]
  rfl

/-- Witness for C1 at `retries = 0`. -/
theorem apiRequest_zero_retries_fails_immediately_witness :
    (New "k").apiRequest (fun _ => RequestOutcome.body "x") 0 "u" [] 0 0 =
      (Outcome.err "Maximum retries exceeded", [], 0) :=
  apiRequest_zero_retries_fails_immediately (New "k")
    (fun _ => RequestOutcome.body "x") 0 "u" [] 0 0 (by decide)

/-- C2: when `retries > 0` and the attempt's response body contains
`CAPCHA_NOT_READY`, the call records exactly one sleep of
`delay * time.Second` and one request (same URL, `key` plus the same
parameters) and then behaves exactly as a recursive call with the same URL,
the same parameters, the same delay, and `retries - 1`, consuming exactly one
further oracle entry for this attempt. -/
theorem apiRequest_not_ready_retries_once_more (c : TwoCaptchaClient)
    (o : Oracle) (idx : Nat) (URL : String) (params : Params)
    (delay retries : Int) (s : String) (hr : 0 < retries)
    (ho : o idx = RequestOutcome.body s)
    (hnr : strContains s "CAPCHA_NOT_READY" = true) :
    c.apiRequest o idx URL params delay retries =
      ((c.apiRequest o (idx + 1) URL params delay (retries - 1)).1,
        Event.sleepEv (durationMulSecond delay)
          :: Event.requestEv URL (("key", c.ApiKey) :: params)
          :: (c.apiRequest o (idx + 1) URL params delay (retries - 1)).2.1,
        (c.apiRequest o (idx + 1) URL params delay (retries - 1)).2.2) := by
  have h1 : retries.toNat = (retries - 1).toNat + 1 := by omega
  unfold TwoCaptchaClient.apiRequest
  rw [h1, apiRequestAux_step]
  simp only [ho, hnr, if_true]

/-- Witness for C2: a not-ready body with two retries left. -/
theorem apiRequest_not_ready_retries_once_more_witness :
    (New "k").apiRequest (fun _ => RequestOutcome.body "CAPCHA_NOT_READY") 0
        "u" [] 0 2 =
      (((New "k").apiRequest (fun _ => RequestOutcome.body "CAPCHA_NOT_READY")
          1 "u" [] 0 (2 - 1)).1,
        Event.sleepEv (durationMulSecond 0)
          :: Event.requestEv "u" [("key", "k")]
          :: ((New "k").apiRequest
              (fun _ => RequestOutcome.body "CAPCHA_NOT_READY") 1 "u" [] 0
              (2 - 1)).2.1,
        ((New "k").apiRequest (fun _ => RequestOutcome.body "CAPCHA_NOT_READY")
            1 "u" [] 0 (2 - 1)).2.2) :=
  apiRequest_not_ready_retries_once_more (New "k")
    (fun _ => RequestOutcome.body "CAPCHA_NOT_READY") 0 "u" [] 0 2
    "CAPCHA_NOT_READY" (by decide) rfl (by decide)

/-- C3: a non-report-bad call whose first response body contains `OK|` and
not `CAPCHA_NOT_READY` succeeds after that single attempt and returns the
body with its first 3 characters stripped; in particular `OK|abc123` yields
exactly `abc123`. -/
theorem apiRequest_ok_body_strips_three (c : TwoCaptchaClient) (o : Oracle)
    (idx : Nat) (URL : String) (params : Params) (delay retries : Int)
    (s : String) (hr : 0 < retries) (ho : o idx = RequestOutcome.body s)
    (hnr : strContains s "CAPCHA_NOT_READY" = false)
    (hact : getParam params "action" ≠ "reportbad")
    (hok : strContains s "OK|" = true) :
    c.apiRequest o idx URL params delay retries =
      (Outcome.ok (sliceFrom s 3),
        [Event.sleepEv (durationMulSecond delay),
          Event.requestEv URL (("key", c.ApiKey) :: params)], idx + 1)
    ∧ sliceFrom "OK|abc123" 3 = "abc123" := by
  have h1 : retries.toNat = (retries - 1).toNat + 1 := by omega
  have hlen : 3 ≤ s.length := strContains_length_le hok
  refine ⟨?_, by decide⟩
  unfold TwoCaptchaClient.apiRequest
  rw [h1, apiRequestAux_step]
  simp only [ho, hnr, hok, hact, hlen, Bool.false_eq_true, if_false,
    bne_iff_ne, ne_eq, not_false_iff, Bool.not_true, Bool.and_false,
    Bool.false_or, beq_iff_eq, if_true]
  simp [hact, hlen]

/-- Witness for C3 at body `OK|abc123`. -/
theorem apiRequest_ok_body_strips_three_witness :
    (New "k").apiRequest (fun _ => RequestOutcome.body "OK|abc123") 0 "u" []
        0 1 =
      (Outcome.ok (sliceFrom "OK|abc123" 3),
        [Event.sleepEv (durationMulSecond 0),
          Event.requestEv "u" [("key", "k")]], 0 + 1)
    ∧ sliceFrom "OK|abc123" 3 = "abc123" :=
  apiRequest_ok_body_strips_three (New "k")
    (fun _ => RequestOutcome.body "OK|abc123") 0 "u" [] 0 1 "OK|abc123"
    (by decide) rfl (by decide) (by decide) (by decide)
/-- C4: `ReportBadCaptcha`, on a response body that does not contain
`CAPCHA_NOT_READY`, succeeds (no payload) exactly when the body is the
literal `OK_REPORT_RECORDED`; any other body — including the generic
solve-success shape — fails with the unexpected-body error. -/
theorem reportBadCaptcha_requires_exact_ack (c : TwoCaptchaClient)
    (o₁ o₂ : Oracle) (idx : Nat) (captchaId s : String)
    (ho₁ : o₁ idx = RequestOutcome.body "OK_REPORT_RECORDED")
    (ho₂ : o₂ idx = RequestOutcome.body s)
    (hnr : strContains s "CAPCHA_NOT_READY" = false)
    (hs : s ≠ "OK_REPORT_RECORDED") :
    c.ReportBadCaptcha o₁ idx captchaId =
      (Outcome.ok (),
        [Event.sleepEv 0,
          Event.requestEv ResultURL
            [("key", c.ApiKey), ("id", captchaId), ("action", "reportbad")]],
        idx + 1)
    ∧ c.ReportBadCaptcha o₂ idx captchaId =
      (Outcome.err ("Invalid respponse from 2captcha: " ++ s),
        [Event.sleepEv 0,
          Event.requestEv ResultURL
            [("key", c.ApiKey), ("id", captchaId), ("action", "reportbad")]],
        idx + 1) := by
  have hact : getParam [("id", captchaId), ("action", "reportbad")] "action"
      = "reportbad" := rfl
  constructor
  · unfold TwoCaptchaClient.ReportBadCaptcha TwoCaptchaClient.apiRequest
    rw [show ((3 : Int).toNat) = 2 + 1 from rfl, apiRequestAux_step]
    rw [ho₁]
    norm_num [hact]
    rfl
  · unfold TwoCaptchaClient.ReportBadCaptcha TwoCaptchaClient.apiRequest
    rw [show ((3 : Int).toNat) = 2 + 1 from rfl, apiRequestAux_step]
    rw [ho₂]
    simp only [hnr, Bool.false_eq_true, if_false, hact, beq_self_eq_true,
      Bool.true_and, bne_self_eq_false, Bool.false_and, Bool.or_false,
      bne_iff_ne, ne_eq, hs, not_false_iff, if_true]
    rfl

/-- Witness for C4: the exact acknowledgement succeeds, while the generic
solve-success body `OK|abc123` is rejected with the unexpected-body error. -/
theorem reportBadCaptcha_requires_exact_ack_witness :
    (New "k").ReportBadCaptcha
        (fun _ => RequestOutcome.body "OK_REPORT_RECORDED") 0 "42" =
      (Outcome.ok (),
        [Event.sleepEv 0,
          Event.requestEv ResultURL
            [("key", "k"), ("id", "42"), ("action", "reportbad")]], 0 + 1)
    ∧ (New "k").ReportBadCaptcha (fun _ => RequestOutcome.body "OK|abc123") 0
        "42" =
      (Outcome.err ("Invalid respponse from 2captcha: " ++ "OK|abc123"),
        [Event.sleepEv 0,
          Event.requestEv ResultURL
            [("key", "k"), ("id", "42"), ("action", "reportbad")]], 0 + 1) :=
  reportBadCaptcha_requires_exact_ack (New "k")
    (fun _ => RequestOutcome.body "OK_REPORT_RECORDED")
    (fun _ => RequestOutcome.body "OK|abc123") 0 "42" "OK|abc123" rfl rfl
    (by decide) (by decide)

/-- C7: when the response body contains neither `CAPCHA_NOT_READY` nor the
success shape for the operation kind (the source's validation condition
holds), the call fails with an error message that embeds the raw body
verbatim. -/
theorem apiRequest_unexpected_body_raw_error (c : TwoCaptchaClient)
    (o : Oracle) (idx : Nat) (URL : String) (params : Params)
    (delay retries : Int) (s : String) (hr : 0 < retries)
    (ho : o idx = RequestOutcome.body s)
    (hnr : strContains s "CAPCHA_NOT_READY" = false)
    (hbad : ((getParam params "action" == "reportbad"
          && s != "OK_REPORT_RECORDED")
        || (getParam params "action" != "reportbad"
          && !strContains s "OK|")) = true) :
    c.apiRequest o idx URL params delay retries =
      (Outcome.err ("Invalid respponse from 2captcha: " ++ s),
        [Event.sleepEv (durationMulSecond delay),
          Event.requestEv URL (("key", c.ApiKey) :: params)], idx + 1)
    ∧ strContains ("Invalid respponse from 2captcha: " ++ s) s = true := by
  have h1 : retries.toNat = (retries - 1).toNat + 1 := by omega
  refine ⟨?_, strContains_append_self _ s⟩
  unfold TwoCaptchaClient.apiRequest
  rw [h1, apiRequestAux_step]
  rw [ho]
  simp only [hnr, Bool.false_eq_true, if_false, hbad, if_true]

/-- Witness for C7 at the solve-path body `ERROR_WRONG_USER_KEY`. -/
theorem apiRequest_unexpected_body_raw_error_witness :
    (New "k").apiRequest (fun _ => RequestOutcome.body "ERROR_WRONG_USER_KEY")
        0 "u" [] 0 1 =
      (Outcome.err ("Invalid respponse from 2captcha: "
          ++ "ERROR_WRONG_USER_KEY"),
        [Event.sleepEv (durationMulSecond 0),
          Event.requestEv "u" [("key", "k")]], 0 + 1)
    ∧ strContains ("Invalid respponse from 2captcha: "
          ++ "ERROR_WRONG_USER_KEY") "ERROR_WRONG_USER_KEY" = true :=
  apiRequest_unexpected_body_raw_error (New "k")
    (fun _ => RequestOutcome.body "ERROR_WRONG_USER_KEY") 0 "u" [] 0 1
    "ERROR_WRONG_USER_KEY" (by decide) rfl (by decide) (by decide)

/-- C8: whichever of the three transport steps fails — building the request
(`http.NewRequest`), sending it (`Client.Do`), or reading the body
(`ioutil.ReadAll`) — the error message is returned unchanged after the single
pre-request sleep: no second sleep, no further request, and no recursion
(the trace ends with that attempt and only one oracle entry is consumed). -/
theorem apiRequest_transport_error_fail_fast (c : TwoCaptchaClient)
    (o₁ o₂ o₃ : Oracle) (idx : Nat) (URL : String) (params : Params)
    (delay retries : Int) (m : String) (hr : 0 < retries)
    (h₁ : o₁ idx = RequestOutcome.buildErr m)
    (h₂ : o₂ idx = RequestOutcome.sendErr m)
    (h₃ : o₃ idx = RequestOutcome.readErr m) :
    c.apiRequest o₁ idx URL params delay retries =
      (Outcome.err m, [Event.sleepEv (durationMulSecond delay)], idx + 1)
    ∧ c.apiRequest o₂ idx URL params delay retries =
      (Outcome.err m,
        [Event.sleepEv (durationMulSecond delay),
          Event.requestEv URL (("key", c.ApiKey) :: params)], idx + 1)
    ∧ c.apiRequest o₃ idx URL params delay retries =
      (Outcome.err m,
        [Event.sleepEv (durationMulSecond delay),
          Event.requestEv URL (("key", c.ApiKey) :: params)], idx + 1) := by
  have h1 : retries.toNat = (retries - 1).toNat + 1 := by omega
  refine ⟨?_, ?_, ?_⟩ <;>
    (unfold TwoCaptchaClient.apiRequest; rw [h1, apiRequestAux_step])
  · rw [h₁]
  · rw [h₂]
  · rw [h₃]

/-- Witness for C8 with a concrete transport error message. -/
theorem apiRequest_transport_error_fail_fast_witness :
    (New "k").apiRequest (fun _ => RequestOutcome.buildErr "boom") 0 "u" [] 0
        1 =
      (Outcome.err "boom", [Event.sleepEv (durationMulSecond 0)], 0 + 1)
    ∧ (New "k").apiRequest (fun _ => RequestOutcome.sendErr "boom") 0 "u" []
        0 1 =
      (Outcome.err "boom",
        [Event.sleepEv (durationMulSecond 0),
          Event.requestEv "u" [("key", "k")]], 0 + 1)
    ∧ (New "k").apiRequest (fun _ => RequestOutcome.readErr "boom") 0 "u" []
        0 1 =
      (Outcome.err "boom",
        [Event.sleepEv (durationMulSecond 0),
          Event.requestEv "u" [("key", "k")]], 0 + 1) :=
  apiRequest_transport_error_fail_fast (New "k")
    (fun _ => RequestOutcome.buildErr "boom")
    (fun _ => RequestOutcome.sendErr "boom")
    (fun _ => RequestOutcome.readErr "boom") 0 "u" [] 0 1 "boom" (by decide)
    rfl rfl rfl
/-- C9: the sleep preceding every attempt lasts `delay * time.Second`
nanoseconds, i.e. the `time.Duration`-typed `delay` is interpreted as a count
of *seconds*.  An already-scaled duration like `5*time.Second = 5·10⁹` thus
sleeps `5·10⁹ · 10⁹` nanoseconds — five billion seconds — while the literal
`5` that `SolveRecaptchaV3` passes internally sleeps exactly `5` seconds. -/
theorem apiRequest_delay_is_seconds (c : TwoCaptchaClient) (o : Oracle)
    (idx : Nat) (URL : String) (params : Params) (delay retries : Int)
    (hr : 0 < retries) :
    (c.apiRequest o idx URL params delay retries).2.1.head? =
      some (Event.sleepEv (durationMulSecond delay))
    ∧ durationMulSecond 5 = 5 * 1000000000
    ∧ durationMulSecond (5 * 1000000000) = 5 * 1000000000 * 1000000000 := by
  have h1 : retries.toNat = (retries - 1).toNat + 1 := by omega
  refine ⟨?_, by decide, by decide⟩
  unfold TwoCaptchaClient.apiRequest
  rw [h1, apiRequestAux_step]
  cases ho : o idx with
  | buildErr m => simp
  | sendErr m => simp
  | readErr m => simp
  | body s =>
    by_cases hnr : strContains s "CAPCHA_NOT_READY" = true
    · simp [hnr]
    · simp only [Bool.not_eq_true] at hnr
      simp only [hnr, Bool.false_eq_true, if_false]
      split
      · simp
      · split <;> simp

/-- Witness for C9 at `delay = 5`, `retries = 1`. -/
theorem apiRequest_delay_is_seconds_witness :
    ((New "k").apiRequest (fun _ => RequestOutcome.body "OK|t") 0 "u" [] 5
          1).2.1.head? =
      some (Event.sleepEv (durationMulSecond 5))
    ∧ durationMulSecond 5 = 5 * 1000000000
    ∧ durationMulSecond (5 * 1000000000) = 5 * 1000000000 * 1000000000 :=
  apiRequest_delay_is_seconds (New "k") (fun _ => RequestOutcome.body "OK|t")
    0 "u" [] 5 1 (by decide)

/-- Whenever `apiRequestAux` succeeds, the validated body is at least 3
characters long, so the success payload really is the body minus its first
three characters: report-bad validation forces the 18-character literal
`OK_REPORT_RECORDED`, and every other operation's validation forces a body
containing the 3-character `OK|`.  Hence the `body[3:]` panic branch is
unreachable. -/
theorem apiRequestAux_never_panics (key : String) (o : Oracle) (URL : String)
    (params : Params) (delay : Int) :
    ∀ fuel idx,
      Outcome.isPanicked (apiRequestAux key o URL params delay idx fuel).1
        = false := by
  intro fuel
  induction fuel with
  | zero => intro idx; rfl
  | succ n ih =>
    intro idx
    rw [apiRequestAux_step]
    cases ho : o idx with
    | buildErr m => rfl
    | sendErr m => rfl
    | readErr m => rfl
    | body s =>
      simp only
      by_cases hnr : strContains s "CAPCHA_NOT_READY" = true
      · simpa [hnr] using ih (idx + 1)
      · simp only [Bool.not_eq_true] at hnr
        simp only [hnr, Bool.false_eq_true, if_false]
        by_cases hbad : ((getParam params "action" == "reportbad"
              && s != "OK_REPORT_RECORDED")
            || (getParam params "action" != "reportbad"
              && !strContains s "OK|")) = true
        · simp [hbad, Outcome.isPanicked]
        · have hlen : 3 ≤ s.length := by
            simp only [Bool.or_eq_true, Bool.and_eq_true, beq_iff_eq,
              bne_iff_ne, ne_eq, Bool.not_eq_true, not_or, not_and,
              Classical.not_not] at hbad
            by_cases hab : getParam params "action" = "reportbad"
            · have hs : s = "OK_REPORT_RECORDED" := hbad.1 hab
              subst hs; decide
            · have hok : strContains s "OK|" = true := by
                have h2 := hbad.2 hab
                simpa using h2
              exact strContains_length_le hok
          simp only [Bool.not_eq_true] at hbad
          simp [hbad, hlen, Outcome.isPanicked]

/-- C10: `apiRequest` never panics: whenever it reaches its success return the
response body has length at least 3 (a non-report-bad success contains the
3-character `OK|`; a report-bad success is the 18-character
`OK_REPORT_RECORDED`), so the Go slice `body[3:]` is always in bounds. -/
theorem apiRequest_never_panics (c : TwoCaptchaClient) (o : Oracle)
    (idx : Nat) (URL : String) (params : Params) (delay retries : Int) :
    Outcome.isPanicked
        (c.apiRequest o idx URL params delay retries).1 = false :=
  apiRequestAux_never_panics c.ApiKey o URL params delay retries.toNat idx
/-- A single attempt that yields a valid non-report-bad success body ends the
call: one sleep, one request, payload `body[3:]`. -/
theorem apiRequest_ok_attempt (c : TwoCaptchaClient) (o : Oracle) (idx : Nat)
    (URL : String) (params : Params) (delay retries : Int) (s : String)
    (hr : 0 < retries) (ho : o idx = RequestOutcome.body s)
    (hnr : strContains s "CAPCHA_NOT_READY" = false)
    (hact : getParam params "action" ≠ "reportbad")
    (hok : strContains s "OK|" = true) :
    c.apiRequest o idx URL params delay retries =
      (Outcome.ok (sliceFrom s 3),
        [Event.sleepEv (durationMulSecond delay),
          Event.requestEv URL (("key", c.ApiKey) :: params)], idx + 1) := by
  have h1 : retries.toNat = (retries - 1).toNat + 1 := by omega
  have hlen : 3 ≤ s.length := strContains_length_le hok
  unfold TwoCaptchaClient.apiRequest
  rw [h1, apiRequestAux_step]
  rw [ho]
  simp only [hnr, Bool.false_eq_true, if_false]
  simp [hact, hlen, hok]

/-- The `v2`/`v3` submission and poll parameter maps carry no `reportbad`
action: the submission map of v2 has no `action` key at all. -/
theorem getParam_action_v2_submission (rk su : String) :
    getParam [("googlekey", rk), ("pageurl", su), ("method", "userrecaptcha")]
      "action" = "" := rfl

/-- The poll parameter map binds `action` to `"get"`. -/
theorem getParam_action_poll (rk su cid : String) :
    getParam [("googlekey", rk), ("pageurl", su), ("method", "userrecaptcha"),
      ("id", cid), ("action", "get")] "action" = "get" := rfl

/-- The v3 submission parameter map binds `action` to the caller's label. -/
theorem getParam_action_v3_submission (rk su act score : String) :
    getParam [("googlekey", rk), ("pageurl", su), ("method", "userrecaptcha"),
      ("version", "v3"), ("action", act), ("min_score", score)]
      "action" = act := rfl

/-- A run of attempts whose bodies are all the literal `CAPCHA_NOT_READY`
exhausts the fuel, producing the retries-exceeded error, one
sleep-and-request pair per unit of fuel, and consuming `fuel` oracle
entries. -/
theorem apiRequestAux_all_not_ready (key : String) (o : Oracle) (URL : String)
    (params : Params) (delay : Int) :
    ∀ fuel idx,
      (∀ n, n < fuel → o (idx + n) = RequestOutcome.body "CAPCHA_NOT_READY") →
      apiRequestAux key o URL params delay idx fuel =
        (Outcome.err "Maximum retries exceeded",
          attemptTrace (durationMulSecond delay) URL (("key", key) :: params)
            fuel,
          idx + fuel) := by
  intro fuel
  induction fuel with
  | zero => intro idx _; simp [apiRequestAux, attemptTrace]
  | succ n ih =>
    intro idx h
    have h0 : o idx = RequestOutcome.body "CAPCHA_NOT_READY" := by
      simpa using h 0 (by omega)
    have hrec := ih (idx + 1) (fun n' hn' => by
      have := h (n' + 1) (by omega)
      rwa [show idx + (n' + 1) = idx + 1 + n' by omega] at this)
    rw [apiRequestAux_step, h0]
    simp only [show strContains "CAPCHA_NOT_READY" "CAPCHA_NOT_READY" = true
        from by decide, if_true, hrec, attemptTrace, Prod.mk.injEq]
    exact ⟨trivial, trivial, by omega⟩

/-- The client-level form of `apiRequestAux_all_not_ready`, with the Go
`retries : int` budget. -/
theorem apiRequest_all_not_ready (c : TwoCaptchaClient) (o : Oracle)
    (idx : Nat) (URL : String) (params : Params) (delay retries : Int)
    (h : ∀ n, n < retries.toNat →
      o (idx + n) = RequestOutcome.body "CAPCHA_NOT_READY") :
    c.apiRequest o idx URL params delay retries =
      (Outcome.err "Maximum retries exceeded",
        attemptTrace (durationMulSecond delay) URL (("key", c.ApiKey) :: params)
          retries.toNat,
        idx + retries.toNat) :=
  apiRequestAux_all_not_ready c.ApiKey o URL params delay retries.toNat idx h

/-- C5: `SolveRecaptchaV2` submits with the fixed internal `(3 attempts,
zero delay)` budget, sleeps `10·10⁹` ns (10 s) unconditionally after a
successful submission and before the first poll, polls the result endpoint
with the caller-supplied `delay` and `retries`, and on success returns both
the solved token and the challenge ID.  Oracle `o` answers both attempts
successfully; `o'` always answers not-ready, showing the submission stops
after exactly 3 zero-delay attempts; `o''` answers the submission and then
is never ready, showing the poll consumes exactly the caller's `retries`
attempts at the caller's `delay`. -/
theorem solveRecaptchaV2_submission_wait_poll (c : TwoCaptchaClient)
    (o o' o'' : Oracle) (idx : Nat) (siteURL recaptchaKey : String)
    (delay retries : Int) (s₁ s₂ : String) (hr : 0 < retries)
    (h1 : o idx = RequestOutcome.body s₁)
    (h2 : strContains s₁ "CAPCHA_NOT_READY" = false)
    (h3 : strContains s₁ "OK|" = true)
    (h4 : o (idx + 1) = RequestOutcome.body s₂)
    (h5 : strContains s₂ "CAPCHA_NOT_READY" = false)
    (h6 : strContains s₂ "OK|" = true)
    (hnr : ∀ n, o' n = RequestOutcome.body "CAPCHA_NOT_READY")
    (h1' : o'' idx = RequestOutcome.body s₁)
    (hnr'' : ∀ n, idx < n → o'' n = RequestOutcome.body "CAPCHA_NOT_READY") :
    c.SolveRecaptchaV2 o idx siteURL recaptchaKey delay retries =
      (Outcome.ok (sliceFrom s₂ 3, sliceFrom s₁ 3),
        [Event.sleepEv 0,
          Event.requestEv ApiURL
            [("key", c.ApiKey), ("googlekey", recaptchaKey),
              ("pageurl", siteURL), ("method", "userrecaptcha")],
          Event.sleepEv 10000000000,
          Event.sleepEv (durationMulSecond delay),
          Event.requestEv ResultURL
            [("key", c.ApiKey), ("googlekey", recaptchaKey),
              ("pageurl", siteURL), ("method", "userrecaptcha"),
              ("id", sliceFrom s₁ 3), ("action", "get")]],
        idx + 2)
    ∧ c.SolveRecaptchaV2 o' idx siteURL recaptchaKey delay retries =
      (Outcome.err "Maximum retries exceeded",
        attemptTrace 0 ApiURL
          [("key", c.ApiKey), ("googlekey", recaptchaKey),
            ("pageurl", siteURL), ("method", "userrecaptcha")] 3,
        idx + 3)
    ∧ c.SolveRecaptchaV2 o'' idx siteURL recaptchaKey delay retries =
      (Outcome.err "Maximum retries exceeded",
        [Event.sleepEv 0,
          Event.requestEv ApiURL
            [("key", c.ApiKey), ("googlekey", recaptchaKey),
              ("pageurl", siteURL), ("method", "userrecaptcha")],
          Event.sleepEv 10000000000]
          ++ attemptTrace (durationMulSecond delay) ResultURL
              [("key", c.ApiKey), ("googlekey", recaptchaKey),
                ("pageurl", siteURL), ("method", "userrecaptcha"),
                ("id", sliceFrom s₁ 3), ("action", "get")] retries.toNat,
        idx + 1 + retries.toNat) := by
  have hd0 : durationMulSecond 0 = 0 := by decide
  have hact2 : getParam [("googlekey", recaptchaKey), ("pageurl", siteURL),
      ("method", "userrecaptcha")] "action" ≠ "reportbad" := by
    rw [getParam_action_v2_submission]; decide
  have hactp : getParam [("googlekey", recaptchaKey), ("pageurl", siteURL),
      ("method", "userrecaptcha"), ("id", sliceFrom s₁ 3), ("action", "get")]
      "action" ≠ "reportbad" := by
    rw [getParam_action_poll]; decide
  refine ⟨?_, ?_, ?_⟩
  · have hsub := apiRequest_ok_attempt c o idx ApiURL
      [("googlekey", recaptchaKey), ("pageurl", siteURL),
        ("method", "userrecaptcha")] 0 3 s₁ (by decide) h1 h2 hact2 h3
    have hpoll := apiRequest_ok_attempt c o (idx + 1) ResultURL
      [("googlekey", recaptchaKey), ("pageurl", siteURL),
        ("method", "userrecaptcha"), ("id", sliceFrom s₁ 3),
        ("action", "get")] delay retries s₂ hr h4 h5 hactp h6
    unfold TwoCaptchaClient.SolveRecaptchaV2
    simp only [hsub, hpoll, hd0, List.cons_append, List.nil_append]
  · have hsub := apiRequest_all_not_ready c o' idx ApiURL
      [("googlekey", recaptchaKey), ("pageurl", siteURL),
        ("method", "userrecaptcha")] 0 3 (fun n _ => hnr (idx + n))
    unfold TwoCaptchaClient.SolveRecaptchaV2
    simp only [hsub, hd0, show ((3 : Int).toNat) = 3 from rfl]
  · have hsub := apiRequest_ok_attempt c o'' idx ApiURL
      [("googlekey", recaptchaKey), ("pageurl", siteURL),
        ("method", "userrecaptcha")] 0 3 s₁ (by decide) h1' h2 hact2 h3
    have hpoll := apiRequest_all_not_ready c o'' (idx + 1) ResultURL
      [("googlekey", recaptchaKey), ("pageurl", siteURL),
        ("method", "userrecaptcha"), ("id", sliceFrom s₁ 3),
        ("action", "get")] delay retries
      (fun n _ => hnr'' (idx + 1 + n) (by omega))
    unfold TwoCaptchaClient.SolveRecaptchaV2
    simp only [hsub, hpoll, hd0, List.cons_append, List.nil_append]

/-- Witness for C5 with concrete bodies `OK|id1` / `OK|tok42`. -/
theorem solveRecaptchaV2_submission_wait_poll_witness :
    (New "k").SolveRecaptchaV2
        (fun n => if n = 0 then RequestOutcome.body "OK|id1"
          else RequestOutcome.body "OK|tok42") 0 "su" "rk" 7 2 =
      (Outcome.ok (sliceFrom "OK|tok42" 3, sliceFrom "OK|id1" 3),
        [Event.sleepEv 0,
          Event.requestEv ApiURL
            [("key", "k"), ("googlekey", "rk"), ("pageurl", "su"),
              ("method", "userrecaptcha")],
          Event.sleepEv 10000000000,
          Event.sleepEv (durationMulSecond 7),
          Event.requestEv ResultURL
            [("key", "k"), ("googlekey", "rk"), ("pageurl", "su"),
              ("method", "userrecaptcha"), ("id", sliceFrom "OK|id1" 3),
              ("action", "get")]],
        0 + 2)
    ∧ (New "k").SolveRecaptchaV2
        (fun _ => RequestOutcome.body "CAPCHA_NOT_READY") 0 "su" "rk" 7 2 =
      (Outcome.err "Maximum retries exceeded",
        attemptTrace 0 ApiURL
          [("key", "k"), ("googlekey", "rk"), ("pageurl", "su"),
            ("method", "userrecaptcha")] 3,
        0 + 3)
    ∧ (New "k").SolveRecaptchaV2
        (fun n => if n = 0 then RequestOutcome.body "OK|id1"
          else RequestOutcome.body "CAPCHA_NOT_READY") 0 "su" "rk" 7 2 =
      (Outcome.err "Maximum retries exceeded",
        [Event.sleepEv 0,
          Event.requestEv ApiURL
            [("key", "k"), ("googlekey", "rk"), ("pageurl", "su"),
              ("method", "userrecaptcha")],
          Event.sleepEv 10000000000]
          ++ attemptTrace (durationMulSecond 7) ResultURL
              [("key", "k"), ("googlekey", "rk"), ("pageurl", "su"),
                ("method", "userrecaptcha"), ("id", sliceFrom "OK|id1" 3),
                ("action", "get")] (2 : Int).toNat,
        0 + 1 + (2 : Int).toNat) :=
  solveRecaptchaV2_submission_wait_poll (New "k")
    (fun n => if n = 0 then RequestOutcome.body "OK|id1"
      else RequestOutcome.body "OK|tok42")
    (fun _ => RequestOutcome.body "CAPCHA_NOT_READY")
    (fun n => if n = 0 then RequestOutcome.body "OK|id1"
      else RequestOutcome.body "CAPCHA_NOT_READY")
    0 "su" "rk" 7 2 "OK|id1" "OK|tok42" (by decide) rfl (by decide)
    (by decide) rfl (by decide) (by decide) (fun _ => rfl) rfl
    (fun n hn => if_neg (Nat.pos_iff_ne_zero.mp hn))
/-- Round-half-even of a rational in `[0, 10]` lands in `[0, 10]`. -/
theorem roundHalfEven_bounds (x : ℚ) (h0 : 0 ≤ x) (h1 : x ≤ 10) :
    0 ≤ roundHalfEven x ∧ roundHalfEven x ≤ 10 := by
  have hf0 : 0 ≤ ⌊x⌋ := Int.floor_nonneg.mpr h0
  have hf10 : ⌊x⌋ ≤ 10 := by
    have := Int.floor_mono h1
    simpa using this
  have hfr : Int.fract x = x - (⌊x⌋ : ℚ) := (Int.self_sub_floor x).symm
  unfold roundHalfEven
  split_ifs with hlt hgt hev
  · exact ⟨hf0, hf10⟩
  · refine ⟨by omega, ?_⟩
    by_contra hc
    have hfx : ⌊x⌋ = 10 := by omega
    rw [hfr, hfx] at hgt
    push_cast at hgt
    linarith
  · exact ⟨hf0, hf10⟩
  · refine ⟨by omega, ?_⟩
    by_contra hc
    have hfx : ⌊x⌋ = 10 := by omega
    have heq : Int.fract x = 1 / 2 := le_antisymm (not_lt.mp hgt) (not_lt.mp hlt)
    rw [hfr, hfx] at heq
    push_cast at heq
    linarith

/-- `%.1f` of a score in `[0, 1]` is one of the eleven one-decimal strings
`0.0 … 1.0`: the serialized form always has exactly one decimal place. -/
theorem fmtOneDecimal_one_place (x : ℚ) (h0 : 0 ≤ x) (h1 : x ≤ 1) :
    fmtOneDecimal x ∈ ["0.0", "0.1", "0.2", "0.3", "0.4", "0.5", "0.6",
      "0.7", "0.8", "0.9", "1.0"] := by
  have hb := roundHalfEven_bounds (x * 10) (by linarith) (by linarith)
  unfold fmtOneDecimal
  obtain ⟨hm0, hm10⟩ := hb
  set m := roundHalfEven (x * 10) with hm
  interval_cases m <;> decide

/-- C6: `SolveRecaptchaV3` submits with the fixed internal `(3 attempts,
zero delay)` budget, serializes `min_score` via `%.1f` (always exactly one
decimal place on `0.0–1.0` scores), polls with the fixed, caller-invisible
`(delay 5, retries 20)` budget, and on success returns only the solved
token, with no challenge ID.  Oracle `o` answers both attempts
successfully; `o'` always answers not-ready, showing the submission stops
after exactly 3 zero-delay attempts; `o''` answers the submission and then
is never ready, showing the poll makes exactly 20 attempts, each sleeping
`5` seconds (`5·10⁹` ns). -/
theorem solveRecaptchaV3_fixed_budgets_and_score_format
    (c : TwoCaptchaClient) (o o' o'' : Oracle) (idx : Nat)
    (siteURL recaptchaKey act : String) (minScore : ℚ) (s₁ s₂ : String)
    (hm0 : 0 ≤ minScore) (hm1 : minScore ≤ 1) (hact : act ≠ "reportbad")
    (h1 : o idx = RequestOutcome.body s₁)
    (h2 : strContains s₁ "CAPCHA_NOT_READY" = false)
    (h3 : strContains s₁ "OK|" = true)
    (h4 : o (idx + 1) = RequestOutcome.body s₂)
    (h5 : strContains s₂ "CAPCHA_NOT_READY" = false)
    (h6 : strContains s₂ "OK|" = true)
    (hnr : ∀ n, o' n = RequestOutcome.body "CAPCHA_NOT_READY")
    (h1' : o'' idx = RequestOutcome.body s₁)
    (hnr'' : ∀ n, idx < n → o'' n = RequestOutcome.body "CAPCHA_NOT_READY") :
    c.SolveRecaptchaV3 o idx siteURL recaptchaKey act minScore =
      (Outcome.ok (sliceFrom s₂ 3),
        [Event.sleepEv 0,
          Event.requestEv ApiURL
            [("key", c.ApiKey), ("googlekey", recaptchaKey),
              ("pageurl", siteURL), ("method", "userrecaptcha"),
              ("version", "v3"), ("action", act),
              ("min_score", fmtOneDecimal minScore)],
          Event.sleepEv 5000000000,
          Event.requestEv ResultURL
            [("key", c.ApiKey), ("googlekey", recaptchaKey),
              ("pageurl", siteURL), ("method", "userrecaptcha"),
              ("id", sliceFrom s₁ 3), ("action", "get")]],
        idx + 2)
    ∧ c.SolveRecaptchaV3 o' idx siteURL recaptchaKey act minScore =
      (Outcome.err "Maximum retries exceeded",
        attemptTrace 0 ApiURL
          [("key", c.ApiKey), ("googlekey", recaptchaKey),
            ("pageurl", siteURL), ("method", "userrecaptcha"),
            ("version", "v3"), ("action", act),
            ("min_score", fmtOneDecimal minScore)] 3,
        idx + 3)
    ∧ c.SolveRecaptchaV3 o'' idx siteURL recaptchaKey act minScore =
      (Outcome.err "Maximum retries exceeded",
        [Event.sleepEv 0,
          Event.requestEv ApiURL
            [("key", c.ApiKey), ("googlekey", recaptchaKey),
              ("pageurl", siteURL), ("method", "userrecaptcha"),
              ("version", "v3"), ("action", act),
              ("min_score", fmtOneDecimal minScore)]]
          ++ attemptTrace 5000000000 ResultURL
              [("key", c.ApiKey), ("googlekey", recaptchaKey),
                ("pageurl", siteURL), ("method", "userrecaptcha"),
                ("id", sliceFrom s₁ 3), ("action", "get")] 20,
        idx + 21)
    ∧ fmtOneDecimal minScore ∈ ["0.0", "0.1", "0.2", "0.3", "0.4", "0.5",
        "0.6", "0.7", "0.8", "0.9", "1.0"] := by
  have hd0 : durationMulSecond 0 = 0 := by decide
  have hd5 : durationMulSecond 5 = 5000000000 := by decide
  have hact3 : getParam [("googlekey", recaptchaKey), ("pageurl", siteURL),
      ("method", "userrecaptcha"), ("version", "v3"), ("action", act),
      ("min_score", fmtOneDecimal minScore)] "action" ≠ "reportbad" := by
    rw [getParam_action_v3_submission]; exact hact
  have hactp : getParam [("googlekey", recaptchaKey), ("pageurl", siteURL),
      ("method", "userrecaptcha"), ("id", sliceFrom s₁ 3), ("action", "get")]
      "action" ≠ "reportbad" := by
    rw [getParam_action_poll]; decide
  refine ⟨?_, ?_, ?_, fmtOneDecimal_one_place minScore hm0 hm1⟩
  · have hsub := apiRequest_ok_attempt c o idx ApiURL
      [("googlekey", recaptchaKey), ("pageurl", siteURL),
        ("method", "userrecaptcha"), ("version", "v3"), ("action", act),
        ("min_score", fmtOneDecimal minScore)] 0 3 s₁ (by decide) h1 h2
      hact3 h3
    have hpoll := apiRequest_ok_attempt c o (idx + 1) ResultURL
      [("googlekey", recaptchaKey), ("pageurl", siteURL),
        ("method", "userrecaptcha"), ("id", sliceFrom s₁ 3),
        ("action", "get")] 5 20 s₂ (by decide) h4 h5 hactp h6
    unfold TwoCaptchaClient.SolveRecaptchaV3
    simp only [hsub, hpoll, hd0, hd5, List.cons_append, List.nil_append]
  · have hsub := apiRequest_all_not_ready c o' idx ApiURL
      [("googlekey", recaptchaKey), ("pageurl", siteURL),
        ("method", "userrecaptcha"), ("version", "v3"), ("action", act),
        ("min_score", fmtOneDecimal minScore)] 0 3 (fun n _ => hnr (idx + n))
    unfold TwoCaptchaClient.SolveRecaptchaV3
    simp only [hsub, hd0, show ((3 : Int).toNat) = 3 from rfl]
  · have hsub := apiRequest_ok_attempt c o'' idx ApiURL
      [("googlekey", recaptchaKey), ("pageurl", siteURL),
        ("method", "userrecaptcha"), ("version", "v3"), ("action", act),
        ("min_score", fmtOneDecimal minScore)] 0 3 s₁ (by decide) h1' h2
      hact3 h3
    have hpoll := apiRequest_all_not_ready c o'' (idx + 1) ResultURL
      [("googlekey", recaptchaKey), ("pageurl", siteURL),
        ("method", "userrecaptcha"), ("id", sliceFrom s₁ 3),
        ("action", "get")] 5 20
      (fun n _ => hnr'' (idx + 1 + n) (by omega))
    unfold TwoCaptchaClient.SolveRecaptchaV3
    simp only [hsub, hpoll, hd5, show ((20 : Int).toNat) = 20 from rfl,
      List.cons_append, List.nil_append]
    simp [hd0, show idx + 1 + 20 = idx + 21 from by omega]

/-- Witness for C6 at `minScore = 0` with concrete bodies. -/
theorem solveRecaptchaV3_fixed_budgets_and_score_format_witness :
    (New "k").SolveRecaptchaV3
        (fun n => if n = 0 then RequestOutcome.body "OK|id1"
          else RequestOutcome.body "OK|tok42") 0 "su" "rk" "login" 0 =
      (Outcome.ok (sliceFrom "OK|tok42" 3),
        [Event.sleepEv 0,
          Event.requestEv ApiURL
            [("key", "k"), ("googlekey", "rk"), ("pageurl", "su"),
              ("method", "userrecaptcha"), ("version", "v3"),
              ("action", "login"), ("min_score", fmtOneDecimal 0)],
          Event.sleepEv 5000000000,
          Event.requestEv ResultURL
            [("key", "k"), ("googlekey", "rk"), ("pageurl", "su"),
              ("method", "userrecaptcha"), ("id", sliceFrom "OK|id1" 3),
              ("action", "get")]],
        0 + 2)
    ∧ (New "k").SolveRecaptchaV3
        (fun _ => RequestOutcome.body "CAPCHA_NOT_READY") 0 "su" "rk" "login"
        0 =
      (Outcome.err "Maximum retries exceeded",
        attemptTrace 0 ApiURL
          [("key", "k"), ("googlekey", "rk"), ("pageurl", "su"),
            ("method", "userrecaptcha"), ("version", "v3"),
            ("action", "login"), ("min_score", fmtOneDecimal 0)] 3,
        0 + 3)
    ∧ (New "k").SolveRecaptchaV3
        (fun n => if n = 0 then RequestOutcome.body "OK|id1"
          else RequestOutcome.body "CAPCHA_NOT_READY") 0 "su" "rk" "login"
        0 =
      (Outcome.err "Maximum retries exceeded",
        [Event.sleepEv 0,
          Event.requestEv ApiURL
            [("key", "k"), ("googlekey", "rk"), ("pageurl", "su"),
              ("method", "userrecaptcha"), ("version", "v3"),
              ("action", "login"), ("min_score", fmtOneDecimal 0)]]
          ++ attemptTrace 5000000000 ResultURL
              [("key", "k"), ("googlekey", "rk"), ("pageurl", "su"),
                ("method", "userrecaptcha"), ("id", sliceFrom "OK|id1" 3),
                ("action", "get")] 20,
        0 + 21)
    ∧ fmtOneDecimal 0 ∈ ["0.0", "0.1", "0.2", "0.3", "0.4", "0.5", "0.6",
        "0.7", "0.8", "0.9", "1.0"] :=
  solveRecaptchaV3_fixed_budgets_and_score_format (New "k")
    (fun n => if n = 0 then RequestOutcome.body "OK|id1"
      else RequestOutcome.body "OK|tok42")
    (fun _ => RequestOutcome.body "CAPCHA_NOT_READY")
    (fun n => if n = 0 then RequestOutcome.body "OK|id1"
      else RequestOutcome.body "CAPCHA_NOT_READY")
    0 "su" "rk" "login" 0 "OK|id1" "OK|tok42" (le_refl 0) zero_le_one
    (by decide) rfl (by decide) (by decide) rfl (by decide) (by decide)
    (fun _ => rfl) rfl (fun n hn => if_neg (Nat.pos_iff_ne_zero.mp hn))
